import Mathlib

/-!
Shallow embedding of `src/main.py` (MozioAPIClient and the `__main__`
workflow driver) and proofs of the specification's claims about it.

The HTTP layer is modelled by passing the server's responses explicitly:
a poll loop receives the stream of poll responses as a function
`Nat → Response` (response `i` is what the `i+1`-st poll call returns).
Python dictionaries become structures; `dict.get(k, d)` on a possibly
missing key becomes `Option.getD`; a Python exception becomes an explicit
error constructor.  Loop instrumentation (the number of poll calls
performed) is carried in the result constructors so that budget and
attempt-count claims can be stated.
-/

namespace Mozio

/-- `MozioAPIClient.POLL_MAX_REQUESTS` (src/main.py line 24). -/
def POLL_MAX_REQUESTS : Nat := 20

/-- Python truthiness of an `Optional[str]`: `None` and `""` are falsy,
every other string is truthy.  Used by `__init__`'s `if not BASE_URL`
checks (lines 27, 30) and the driver's `if not reservation_id` (line 236). -/
def pyTruthyStr : Option String → Bool
  | none => false
  | some s => !s.isEmpty

/-- The exception type raised by `MozioAPIClient.__init__`
(`EnvironmentVariableNotSet`, src/main.py lines 15-18), tagged by which
variable was missing. -/
inductive EnvironmentVariableNotSet where
  | baseUrlNotSet
  | apiKeyNotSet
deriving DecidableEq, Repr

/-- Python `s.rstrip("/")`: drop all trailing `'/'` characters
(src/main.py line 33). -/
def rstripSlashes (s : String) : String :=
  String.mk (List.reverse (List.dropWhile (fun c => c = '/') s.data.reverse))

/-- The state `__init__` builds on success: `self.base_url` and the
`API-KEY` header value (src/main.py lines 33-34). -/
structure ClientState where
  base_url : String
  api_key_header : String
deriving DecidableEq, Repr

/-- Result of running `MozioAPIClient.__init__` together with the number
of HTTP calls its body performs.  The body (src/main.py lines 26-34) only
validates configuration and builds strings; it contains no `requests.*`
call, so the instrumented call count is `0` on every path. -/
structure InitResult where
  result : Except EnvironmentVariableNotSet ClientState
  http_calls : Nat
deriving Repr

/-- `MozioAPIClient.__init__` (src/main.py lines 26-34): raise
`EnvironmentVariableNotSet` when `BASE_URL` is falsy, then when `API_KEY`
is falsy; otherwise normalize the base url (`rstrip("/") + "/"`) and
record the API-key header. -/
def client_construct (BASE_URL API_KEY : Option String) : InitResult :=
  if !pyTruthyStr BASE_URL then ⟨.error .baseUrlNotSet, 0⟩
  else if !pyTruthyStr API_KEY then ⟨.error .apiKeyNotSet, 0⟩
  else ⟨.ok ⟨rstripSlashes (BASE_URL.getD "") ++ "/", API_KEY.getD ""⟩, 0⟩

/-- An HTTP response as the client observes it: `response.ok` (2xx) and
the parsed json body (kept abstract as a string). -/
structure HttpResponse where
  ok : Bool
  json_body : String
deriving DecidableEq, Repr

/-- `MozioAPIClient.cancel` (src/main.py lines 88-99), as a function of
the HTTP response the DELETE call produced: on a non-2xx response it
raises `Exception(response.json())`; otherwise it returns `True`. -/
def cancel (response : HttpResponse) : Except String Bool :=
  if !response.ok then Except.error response.json_body
  else Except.ok true

/-- The workflow driver's cancellation report (src/main.py lines 239-244):
after a successful `cancel` call it prints "Done" when the returned
boolean is truthy and "Failed" otherwise; an exception propagates
(no report). -/
def cancellation_report (c : Except String Bool) : Option String :=
  match c with
  | Except.error _ => none
  | Except.ok has_been_cancelled => some (if has_been_cancelled then "Done" else "Failed")

/-- The innermost `total_price` object of an offer: carries the numeric
`value` that `float(...)` extracts (src/main.py line 218).  The numeric
value is modelled as a rational. -/
structure TotalPriceValue where
  value : Rat
deriving DecidableEq, Repr

/-- The outer `total_price` field of an offer (src/main.py line 218 reads
`vehicle["total_price"]["total_price"]["value"]`). -/
structure TotalPriceField where
  total_price : TotalPriceValue
deriving DecidableEq, Repr

/-- A vehicle offer from a poll-search response: its `result_id`
(src/main.py line 228) and nested total price (line 218). -/
structure VehicleOffer where
  result_id : String
  total_price : TotalPriceField
deriving DecidableEq, Repr

/-- The selection key of src/main.py line 218:
`float(vehicle["total_price"]["total_price"]["value"])`. -/
def offer_price (vehicle : VehicleOffer) : Rat :=
  vehicle.total_price.total_price.value

/-- CPython `min(iterable, key=...)` on a nonempty prefix: the running
minimum is replaced only when the new key is strictly smaller, so the
first element attaining the minimal key is kept. -/
def py_min_fold {α : Type} (key : α → Rat) (best : α) : List α → α
  | [] => best
  | y :: ys => py_min_fold key (if key y < key best then y else best) ys

/-- CPython `min(iterable, key=...)`: `none` models the `ValueError` on an
empty iterable; otherwise fold `py_min_fold` over the tail. -/
def py_min {α : Type} (key : α → Rat) : List α → Option α
  | [] => none
  | x :: xs => some (py_min_fold key x xs)

/-- `cheapest_vehicle` of the workflow driver (src/main.py lines 216-219):
`min(all_search_results, key=lambda v: float(v["total_price"]["total_price"]["value"]))`. -/
def cheapest_vehicle (all_search_results : List VehicleOffer) : Option VehicleOffer :=
  py_min offer_price all_search_results

/-- One poll-search response body: `results` array and `more_coming` flag
(src/main.py lines 128, 130). -/
structure PollSearchResponse where
  results : List VehicleOffer
  more_coming : Bool
deriving Repr

/-- The search response body: the loop only reads `search_id`
(src/main.py line 123). -/
structure SearchResponse where
  search_id : String
deriving DecidableEq, Repr

/-- Outcome of `search_and_gather_results`: either the returned pair
together with the loop counter at the break (the number printed at
line 132), or the `raise` of the loop's `else` clause (line 137) with the
number of poll calls performed. -/
inductive SearchGatherResult where
  | ok (search_id : String) (all_poll_results : List VehicleOffer) (search_poll_requests : Nat)
  | budget_exceeded (attempts : Nat)
deriving DecidableEq, Repr

/-- The `for search_poll_requests_counter in range(1, POLL_MAX_REQUESTS + 1)`
loop of src/main.py lines 126-137.  `polled` counts poll calls already
made (the next call reads `polls polled`), `acc` is `all_poll_results`,
and the last argument is the remaining fuel of the `range`. -/
def search_poll_loop (search_id : String) (polls : Nat → PollSearchResponse) :
    Nat → List VehicleOffer → Nat → SearchGatherResult
  | polled, _, 0 => SearchGatherResult.budget_exceeded polled
  | polled, acc, fuel + 1 =>
    let resp := polls polled
    let acc2 := acc ++ resp.results
    if resp.more_coming then search_poll_loop search_id polls (polled + 1) acc2 fuel
    else SearchGatherResult.ok search_id acc2 (polled + 1)

/-- `MozioAPIClient.search_and_gather_results` (src/main.py lines 101-139)
past the initial `search` call: extract `search_id` from the search
response and run the poll loop with an empty accumulator and the full
`POLL_MAX_REQUESTS` budget. -/
def search_and_gather_results (search_response : SearchResponse)
    (polls : Nat → PollSearchResponse) : SearchGatherResult :=
  search_poll_loop search_response.search_id polls 0 [] POLL_MAX_REQUESTS

/-- One reservation record as read at src/main.py lines 173-174:
`confirmation_number` and `id`. -/
structure Reservation where
  confirmation_number : String
  id : String
deriving DecidableEq, Repr

/-- One poll-reservation response body: a possibly missing `status` field
(read with `.get("status", "")`, line 164) and the `reservations` array
(line 172). -/
structure PollReservationResponse where
  status : Option String
  reservations : List Reservation
deriving DecidableEq, Repr

/-- Python `str.lower()`: lowercase each character (the statuses involved
are basic-latin, where CPython's and `Char.toLower`'s behaviour agree),
as a structural map over the string's characters. -/
def pyLower (s : String) : String :=
  String.mk (s.data.map Char.toLower)

/-- `poll_reservation_response.get("status", "").lower()`
(src/main.py line 164). -/
def poll_status (resp : PollReservationResponse) : String :=
  pyLower (resp.status.getD "")

/-- Outcome of `book_and_get_status`: the returned `Optional[str]`
together with the confirmation number printed on the completed branch and
the loop counter at the break; or the `IndexError` crash of
`reservations[0]` on an empty array (line 172); or the `raise` of the
loop's `else` clause (line 189).  Each constructor carries the number of
poll calls performed. -/
inductive BookStatusResult where
  | returned (reservation_id : Option String) (confirmation_number : Option String)
      (attempts : Nat)
  | index_error (attempts : Nat)
  | budget_exceeded (attempts : Nat)
deriving DecidableEq, Repr

/-- The `for reservation_poll_requests_counter in range(1, POLL_MAX_REQUESTS + 1)`
loop of src/main.py lines 162-189: on `"pending"` sleep and continue; on
`"completed"` read `reservations[0]` (crash when empty) and break with its
`id` and `confirmation_number`; on any other lowered status break with
`reservation_id` still `None`; at fuel exhaustion raise. -/
def book_poll_loop (polls : Nat → PollReservationResponse) : Nat → Nat → BookStatusResult
  | polled, 0 => BookStatusResult.budget_exceeded polled
  | polled, fuel + 1 =>
    let resp := polls polled
    let st := poll_status resp
    if st = "pending" then book_poll_loop polls (polled + 1) fuel
    else if st = "completed" then
      match resp.reservations with
      | [] => BookStatusResult.index_error (polled + 1)
      | r :: _ => BookStatusResult.returned (some r.id) (some r.confirmation_number) (polled + 1)
    else BookStatusResult.returned none none (polled + 1)

/-- A successful (2xx) book-response body, kept abstract as a json-object
association list.  `book_and_get_status` receives it and discards it. -/
def BookResponseBody : Type := List (String × String)

/-- `MozioAPIClient.book_and_get_status` (src/main.py lines 141-190) past
the book call: line 159 calls `self.book(book_payload)` and discards its
return value, then the reservation poll loop runs with the full budget. -/
def book_and_get_status (book_response : BookResponseBody)
    (polls : Nat → PollReservationResponse) : BookStatusResult :=
  let _ := book_response
  book_poll_loop polls 0 POLL_MAX_REQUESTS

/-- The driver's cancellation guard (src/main.py lines 236-244): with
`if not reservation_id` the cancellation is skipped, otherwise exactly one
`cancel` call is made.  Returns the number of cancel-endpoint calls. -/
def cancel_call_count (reservation_id : Option String) : Nat :=
  if pyTruthyStr reservation_id then 1 else 0

/-- Cancel-endpoint call count of a whole driver run as a function of the
`book_and_get_status` outcome: a crash or budget exhaustion propagates
out of line 233 before the cancellation branch is reached. -/
def workflow_cancel_calls : BookStatusResult → Nat
  | BookStatusResult.returned reservation_id _ _ => cancel_call_count reservation_id
  | BookStatusResult.index_error _ => 0
  | BookStatusResult.budget_exceeded _ => 0

end Mozio

namespace Mozio

/-- Exhaustion lemma for the search poll loop: when `more_coming` is true
on every poll the remaining fuel allows, the loop runs the fuel out and
raises, having performed `i + fuel` poll calls in total. -/
theorem search_poll_loop_exhausts (search_id : String)
    (polls : Nat → PollSearchResponse) :
    ∀ (fuel i : Nat) (acc : List VehicleOffer),
      (∀ j, j < fuel → (polls (i + j)).more_coming = true) →
      search_poll_loop search_id polls i acc fuel =
        SearchGatherResult.budget_exceeded (i + fuel) := by
  intro fuel
  induction fuel with
  | zero => intro i acc _; simp [search_poll_loop]
  | succ f ih =>
    intro i acc hmore
    have h0 : (polls i).more_coming = true := by
      have := hmore 0 (Nat.succ_pos f)
      simpa using this
    have hrest : ∀ j, j < f → (polls (i + 1 + j)).more_coming = true := by
      intro j hj
      have := hmore (j + 1) (Nat.succ_lt_succ hj)
      have e : i + (j + 1) = i + 1 + j := by omega
      rwa [e] at this
    have := ih (i + 1) (acc ++ (polls i).results) hrest
    have e : i + 1 + f = i + (f + 1) := by omega
    rw [e] at this
    simpa [search_poll_loop, h0] using this

/-- Exhaustion lemma for the reservation poll loop: when the lowered
status is "pending" on every poll the remaining fuel allows, the loop
runs the fuel out and raises, having performed `i + fuel` poll calls. -/
theorem book_poll_loop_exhausts (polls : Nat → PollReservationResponse) :
    ∀ (fuel i : Nat),
      (∀ j, j < fuel → poll_status (polls (i + j)) = "pending") →
      book_poll_loop polls i fuel = BookStatusResult.budget_exceeded (i + fuel) := by
  intro fuel
  induction fuel with
  | zero => intro i _; simp [book_poll_loop]
  | succ f ih =>
    intro i hpend
    have h0 : poll_status (polls i) = "pending" := by
      have := hpend 0 (Nat.succ_pos f)
      simpa using this
    have hrest : ∀ j, j < f → poll_status (polls (i + 1 + j)) = "pending" := by
      intro j hj
      have := hpend (j + 1) (Nat.succ_lt_succ hj)
      have e : i + (j + 1) = i + 1 + j := by omega
      rwa [e] at this
    have := ih (i + 1) hrest
    have e : i + 1 + f = i + (f + 1) := by omega
    rw [e] at this
    simpa [book_poll_loop, h0] using this

/-- Claim C2: if `more_coming` is true on each of the first 20 search
polls, `search_and_gather_results` performs exactly 20 poll attempts and
raises the budget-exceeded exception recording 20 attempts (the
hypotheses say nothing about polls beyond index 19, so no 21st poll can
influence the outcome); under the same budget, if the reservation status
stays "pending" on each of the first 20 reservation polls,
`book_and_get_status` likewise raises after exactly 20 attempts. -/
theorem poll_budget_exact (search_response : SearchResponse)
    (polls : Nat → PollSearchResponse)
    (book_response : BookResponseBody)
    (rpolls : Nat → PollReservationResponse)
    (hsearch : ∀ i, i < POLL_MAX_REQUESTS → (polls i).more_coming = true)
    (hres : ∀ i, i < POLL_MAX_REQUESTS → poll_status (rpolls i) = "pending") :
    search_and_gather_results search_response polls =
        SearchGatherResult.budget_exceeded POLL_MAX_REQUESTS
      ∧ book_and_get_status book_response rpolls =
        BookStatusResult.budget_exceeded POLL_MAX_REQUESTS := by
  constructor
  · have := search_poll_loop_exhausts search_response.search_id polls
      POLL_MAX_REQUESTS 0 [] (by intro j hj; simpa using hsearch j hj)
    simpa [search_and_gather_results] using this
  · have := book_poll_loop_exhausts rpolls POLL_MAX_REQUESTS 0
      (by intro j hj; simpa using hres j hj)
    simpa [book_and_get_status] using this

/-- A poll-search stream that always has more coming. -/
def always_more_polls : Nat → PollSearchResponse := fun _ =>
  { results := [], more_coming := true }

/-- A poll-reservation stream that always reports status "pending". -/
def always_pending_polls : Nat → PollReservationResponse := fun _ =>
  { status := some "pending", reservations := [] }

/-- A successful book-response body used as a dummy concrete value. -/
def sample_book_body : BookResponseBody := []

/-- Witness for claim C2 at the concrete always-more and always-pending
streams: both loops raise after exactly 20 attempts. -/
theorem poll_budget_exact_witness :
    search_and_gather_results { search_id := "sid" } always_more_polls =
        SearchGatherResult.budget_exceeded POLL_MAX_REQUESTS
      ∧ book_and_get_status sample_book_body always_pending_polls =
        BookStatusResult.budget_exceeded POLL_MAX_REQUESTS :=
  poll_budget_exact { search_id := "sid" } always_more_polls sample_book_body
    always_pending_polls (fun _ _ => rfl) (fun _ _ => by rfl)

end Mozio

namespace Mozio

/-- Success lemma for the search poll loop: starting with `i` polls
already made and accumulator `acc`, if `more_coming` holds for the next
`k` polls and fails on poll `k + 1`, and the fuel covers them, the loop
returns `acc` extended with the concatenation of the `k + 1` polls'
`results` arrays, with the break counter `i + (k + 1)`. -/
theorem search_poll_loop_gathers (search_id : String)
    (polls : Nat → PollSearchResponse) :
    ∀ (k i fuel : Nat) (acc : List VehicleOffer),
      k < fuel →
      (∀ j, j < k → (polls (i + j)).more_coming = true) →
      (polls (i + k)).more_coming = false →
      search_poll_loop search_id polls i acc fuel =
        SearchGatherResult.ok search_id
          (acc ++ ((List.range (k + 1)).map fun j => (polls (i + j)).results).flatten)
          (i + (k + 1)) := by
  intro k
  induction k with
  | zero =>
    intro i fuel acc hfuel _ hstop
    obtain ⟨f, rfl⟩ : ∃ f, fuel = f + 1 := ⟨fuel - 1, by omega⟩
    have hstop0 : (polls i).more_coming = false := by simpa using hstop
    simp [search_poll_loop, hstop0, List.range_succ]
  | succ k ih =>
    intro i fuel acc hfuel hmore hstop
    obtain ⟨f, rfl⟩ : ∃ f, fuel = f + 1 := ⟨fuel - 1, by omega⟩
    have hk : k < f := by omega
    have h0 : (polls i).more_coming = true := by
      have := hmore 0 (Nat.succ_pos k)
      simpa using this
    have hmore1 : ∀ j, j < k → (polls (i + 1 + j)).more_coming = true := by
      intro j hj
      have := hmore (j + 1) (Nat.succ_lt_succ hj)
      have e : i + (j + 1) = i + 1 + j := by omega
      rwa [e] at this
    have hstop1 : (polls (i + 1 + k)).more_coming = false := by
      have e : i + (k + 1) = i + 1 + k := by omega
      rwa [e] at hstop
    have hrec := ih (i + 1) f (acc ++ (polls i).results) hk hmore1 hstop1
    have hstep : search_poll_loop search_id polls i acc (f + 1) =
        search_poll_loop search_id polls (i + 1) (acc ++ (polls i).results) f := by
      simp [search_poll_loop, h0]
    have hlist : (polls i).results ++
          ((List.range (k + 1)).map fun j => (polls (i + 1 + j)).results).flatten =
        ((List.range (k + 1 + 1)).map fun j => (polls (i + j)).results).flatten := by
      conv_rhs => rw [List.range_succ_eq_map, List.map_cons, List.flatten_cons, List.map_map]
      have e : ∀ j, i + 1 + j = i + (j + 1) := fun j => by omega
      simp only [Function.comp_def, Nat.succ_eq_add_one, Nat.add_zero, e]
    have e2 : i + 1 + (k + 1) = i + (k + 1 + 1) := by omega
    rw [hstep, hrec, List.append_assoc, hlist, e2]

/-- Claim C3: when `more_coming` is true for the first `k` polls and
false on poll `k + 1`, with `k + 1` within the budget of 20,
`search_and_gather_results` returns the `search_id` together with the
concatenation, in arrival order, of the `results` arrays of all `k + 1`
polls, and the break counter it reports is `k + 1`: it stops on the
first poll whose `more_coming` is false. -/
theorem search_and_gather_concatenates (search_response : SearchResponse)
    (polls : Nat → PollSearchResponse) (k : Nat)
    (hk : k + 1 ≤ POLL_MAX_REQUESTS)
    (hmore : ∀ j, j < k → (polls j).more_coming = true)
    (hstop : (polls k).more_coming = false) :
    search_and_gather_results search_response polls =
      SearchGatherResult.ok search_response.search_id
        (((List.range (k + 1)).map fun j => (polls j).results).flatten)
        (k + 1) := by
  have hfuel : k < POLL_MAX_REQUESTS := Nat.lt_of_succ_le hk
  have := search_poll_loop_gathers search_response.search_id polls k 0
    POLL_MAX_REQUESTS [] hfuel (by intro j hj; simpa using hmore j hj)
    (by simpa using hstop)
  simpa [search_and_gather_results] using this

/-- A concrete offer with price 31. -/
def offer_first : VehicleOffer :=
  { result_id := "first", total_price := { total_price := { value := 31 } } }

/-- A concrete offer with price 42. -/
def offer_second : VehicleOffer :=
  { result_id := "second", total_price := { total_price := { value := 42 } } }

/-- A two-poll search stream: the first poll yields one offer with more
coming, the second yields one more offer and stops. -/
def two_step_polls : Nat → PollSearchResponse := fun i =>
  if i = 0 then { results := [offer_first], more_coming := true }
  else { results := [offer_second], more_coming := false }

/-- Witness for claim C3 at the concrete two-poll stream (k = 1): the
gathered list is the concatenation of both polls' results and the
reported counter is 2. -/
theorem search_and_gather_concatenates_witness :
    search_and_gather_results { search_id := "sid" } two_step_polls =
      SearchGatherResult.ok "sid" [offer_first, offer_second] 2 := by
  have h := search_and_gather_concatenates { search_id := "sid" } two_step_polls 1
    (by decide)
    (by intro j hj
        have hj0 : j = 0 := by omega
        subst hj0
        rfl)
    (by rfl)
  exact h.trans (by decide)

end Mozio

namespace Mozio

/-- Classification lemma for the reservation poll loop: after a prefix of
`n` polls whose lowered status is "pending" (with fuel to spare), the
loop's outcome is decided by poll `n + 1` alone: a "completed" status
returns the first reservation record's id and confirmation number, and
any status that is neither "pending" nor "completed" returns with the
reservation id still `None`; either way the loop breaks at counter
`i + n + 1`. -/
theorem book_poll_loop_classified (polls : Nat → PollReservationResponse) :
    ∀ (n i fuel : Nat), n < fuel →
      (∀ j, j < n → poll_status (polls (i + j)) = "pending") →
      ((∀ r rest, poll_status (polls (i + n)) = "completed" →
          (polls (i + n)).reservations = r :: rest →
          book_poll_loop polls i fuel =
            BookStatusResult.returned (some r.id) (some r.confirmation_number) (i + n + 1))
        ∧ (poll_status (polls (i + n)) ≠ "pending" →
          poll_status (polls (i + n)) ≠ "completed" →
          book_poll_loop polls i fuel =
            BookStatusResult.returned none none (i + n + 1))) := by
  intro n
  induction n with
  | zero =>
    intro i fuel hfuel _
    obtain ⟨f, rfl⟩ : ∃ f, fuel = f + 1 := ⟨fuel - 1, by omega⟩
    constructor
    · intro r rest hst hres
      have hst0 : poll_status (polls i) = "completed" := by simpa using hst
      have hres0 : (polls i).reservations = r :: rest := by simpa using hres
      have hne : poll_status (polls i) ≠ "pending" := by
        rw [hst0]; decide
      simp [book_poll_loop, hne, hst0, hres0]
    · intro hnp hnc
      have hnp0 : poll_status (polls i) ≠ "pending" := by simpa using hnp
      have hnc0 : poll_status (polls i) ≠ "completed" := by simpa using hnc
      simp [book_poll_loop, hnp0, hnc0]
  | succ n ih =>
    intro i fuel hfuel hpend
    obtain ⟨f, rfl⟩ : ∃ f, fuel = f + 1 := ⟨fuel - 1, by omega⟩
    have hn : n < f := by omega
    have h0 : poll_status (polls i) = "pending" := by
      have := hpend 0 (Nat.succ_pos n)
      simpa using this
    have hpend1 : ∀ j, j < n → poll_status (polls (i + 1 + j)) = "pending" := by
      intro j hj
      have := hpend (j + 1) (Nat.succ_lt_succ hj)
      have e : i + (j + 1) = i + 1 + j := by omega
      rwa [e] at this
    have hstep : book_poll_loop polls i (f + 1) = book_poll_loop polls (i + 1) f := by
      simp [book_poll_loop, h0]
    have hrec := ih (i + 1) f hn hpend1
    have e : i + 1 + n = i + (n + 1) := by omega
    rw [e] at hrec
    constructor
    · intro r rest hst hres
      rw [hstep, hrec.1 r rest hst hres]
    · intro hnp hnc
      rw [hstep, hrec.2 hnp hnc]

/-- Claim C5: `book_and_get_status` keeps polling while the status is
"pending"; as soon as a poll has status "completed" (with a nonempty
`reservations` array) it returns the first reservation record's id and
confirmation number, and on any other status value, even on the very
first poll, it returns `None` at once, without consuming further budget
and without raising. -/
theorem book_status_classifier (book_response : BookResponseBody)
    (polls : Nat → PollReservationResponse) (n : Nat)
    (hn : n < POLL_MAX_REQUESTS)
    (hpend : ∀ j, j < n → poll_status (polls j) = "pending") :
    (∀ r rest, poll_status (polls n) = "completed" →
        (polls n).reservations = r :: rest →
        book_and_get_status book_response polls =
          BookStatusResult.returned (some r.id) (some r.confirmation_number) (n + 1))
      ∧ (poll_status (polls n) ≠ "pending" → poll_status (polls n) ≠ "completed" →
        book_and_get_status book_response polls =
          BookStatusResult.returned none none (n + 1)) := by
  have h := book_poll_loop_classified polls n 0 POLL_MAX_REQUESTS hn
    (by intro j hj; simpa using hpend j hj)
  constructor
  · intro r rest hst hres
    have := h.1 r rest (by simpa using hst) (by simpa using hres)
    simpa [book_and_get_status] using this
  · intro hnp hnc
    have := h.2 (by simpa using hnp) (by simpa using hnc)
    simpa [book_and_get_status] using this

/-- A three-poll reservation stream: pending, pending, then completed
with one reservation record. -/
def pending_then_completed_polls : Nat → PollReservationResponse := fun i =>
  if i < 2 then { status := some "pending", reservations := [] }
  else { status := some "completed",
         reservations := [{ confirmation_number := "CONF123", id := "RES456" }] }

/-- Witness for claim C5 at the concrete stream pending, pending,
completed: the outcome carries the first record's id and confirmation
number and the loop broke on the third attempt. -/
theorem book_status_classifier_witness :
    book_and_get_status sample_book_body pending_then_completed_polls =
      BookStatusResult.returned (some "RES456") (some "CONF123") 3 := by
  have h := (book_status_classifier sample_book_body pending_then_completed_polls 2
    (by decide)
    (by intro j hj
        interval_cases j <;> rfl)).1
    { confirmation_number := "CONF123", id := "RES456" } [] (by rfl) (by rfl)
  exact h

end Mozio

namespace Mozio

/-- Claim C10: reservation status matching is case-insensitive because of
the `.lower()` call: a raw status of "Completed" on the first poll is
treated as completed (the first record's id and confirmation number are
returned), a raw status of "PENDING" is treated as pending (the loop
sleeps and polls again), and a response with no "status" field at all
falls to the default "" and is an indeterminate terminal outcome: the
loop returns `None` after that single poll without crashing. -/
theorem status_lowered_and_missing (book_response : BookResponseBody)
    (polls : Nat → PollReservationResponse) :
    (∀ r rest, (polls 0).status = some "Completed" →
        (polls 0).reservations = r :: rest →
        book_and_get_status book_response polls =
          BookStatusResult.returned (some r.id) (some r.confirmation_number) 1)
      ∧ ((polls 0).status = some "PENDING" →
        ∀ r rest, poll_status (polls 1) = "completed" →
          (polls 1).reservations = r :: rest →
          book_and_get_status book_response polls =
            BookStatusResult.returned (some r.id) (some r.confirmation_number) 2)
      ∧ ((polls 0).status = none →
        book_and_get_status book_response polls =
          BookStatusResult.returned none none 1) := by
  refine ⟨?_, ?_, ?_⟩
  · intro r rest hraw hres
    have hst : poll_status (polls 0) = "completed" := by
      simp [poll_status, hraw]
      decide
    exact (book_status_classifier book_response polls 0 (by decide)
      (by intro j hj; omega)).1 r rest hst hres
  · intro hraw r rest hst1 hres1
    have hst0 : poll_status (polls 0) = "pending" := by
      simp [poll_status, hraw]
      decide
    refine (book_status_classifier book_response polls 1 (by decide) ?_).1 r rest hst1 hres1
    intro j hj
    have hj0 : j = 0 := by omega
    subst hj0
    exact hst0
  · intro hraw
    have hst : poll_status (polls 0) = "" := by
      simp [poll_status, hraw, pyLower]
    exact (book_status_classifier book_response polls 0 (by decide)
      (by intro j hj; omega)).2 (by rw [hst]; decide) (by rw [hst]; decide)

/-- A reservation stream whose first poll has mixed-case raw status
"PENDING" and whose second has "Completed" with one record. -/
def mixed_case_polls : Nat → PollReservationResponse := fun i =>
  if i = 0 then { status := some "PENDING", reservations := [] }
  else { status := some "Completed",
         reservations := [{ confirmation_number := "MC1", id := "MR2" }] }

/-- Witness for claim C10 at the mixed-case stream: "PENDING" is treated
as pending and "Completed" as completed, so the outcome is returned on
the second attempt. -/
theorem status_lowered_and_missing_witness :
    book_and_get_status sample_book_body mixed_case_polls =
      BookStatusResult.returned (some "MR2") (some "MC1") 2 :=
  (status_lowered_and_missing sample_book_body mixed_case_polls).2.1 rfl
    { confirmation_number := "MC1", id := "MR2" } [] (by decide) rfl

/-- A reservation stream whose first poll reports status "completed" with
an empty `reservations` array. -/
def completed_empty_polls : Nat → PollReservationResponse := fun _ =>
  { status := some "completed", reservations := [] }

/-- Claim C1, against the code: on a poll with status "completed" and an
empty `reservations` array, `book_and_get_status` reaches
`poll_reservation_response["reservations"][0]` (src/main.py line 172) and
crashes with an IndexError on the first attempt; there is no defensive
EmptyReservationList check in the code. -/
theorem completed_empty_reservations_crashes :
    book_and_get_status sample_book_body completed_empty_polls =
      BookStatusResult.index_error 1 := rfl

end Mozio

namespace Mozio

/-- Structure of the CPython min fold: the returned element is the first
element of `best :: l` attaining the minimal key, witnessed by a
decomposition of `best :: l` into a prefix of strictly larger keys, the
chosen element, and the rest. -/
theorem py_min_fold_first_min {α : Type} (key : α → Rat) :
    ∀ (l : List α) (best : α),
      ∃ pre b post,
        py_min_fold key best l = b ∧
        best :: l = pre ++ b :: post ∧
        (∀ o ∈ best :: l, key b ≤ key o) ∧
        (∀ o ∈ pre, key b < key o) := by
  intro l
  induction l with
  | nil =>
    intro best
    refine ⟨[], best, [], rfl, rfl, ?_, by simp⟩
    intro o ho
    simp at ho
    subst ho
    exact le_refl _
  | cons y ys ih =>
    intro best
    by_cases hlt : key y < key best
    · obtain ⟨pre, b, post, hfold, hdec, hmin, hpre⟩ := ih y
      refine ⟨best :: pre, b, post, ?_, ?_, ?_, ?_⟩
      · simp [py_min_fold, hlt, hfold]
      · simp [hdec]
      · intro o ho
        rcases List.mem_cons.mp ho with h | h
        · subst h
          have hby : key b ≤ key y := hmin y (List.mem_cons_self y ys)
          exact le_of_lt (lt_of_le_of_lt hby hlt)
        · exact hmin o h
      · intro o ho
        rcases List.mem_cons.mp ho with h | h
        · subst h
          have hby : key b ≤ key y := hmin y (List.mem_cons_self y ys)
          exact lt_of_le_of_lt hby hlt
        · exact hpre o h
    · have hle : key best ≤ key y := le_of_not_lt hlt
      obtain ⟨pre, b, post, hfold, hdec, hmin, hpre⟩ := ih best
      cases pre with
      | nil =>
        simp only [List.nil_append, List.cons.injEq] at hdec
        obtain ⟨hb, hpost⟩ := hdec
        subst hb
        refine ⟨[], best, y :: ys, ?_, by simp, ?_, by simp⟩
        · simp [py_min_fold, hlt, hfold]
        · intro o ho
          rcases List.mem_cons.mp ho with h | h
          · subst h
            exact le_refl _
          · rcases List.mem_cons.mp h with h2 | h2
            · subst h2
              exact hle
            · exact hmin o (List.mem_cons_of_mem _ h2)
      | cons p pre2 =>
        simp only [List.cons_append, List.cons.injEq] at hdec
        obtain ⟨hp, hys⟩ := hdec
        subst hp
        have hbbest : key b < key best := hpre best (List.mem_cons_self best pre2)
        refine ⟨best :: y :: pre2, b, post, ?_, ?_, ?_, ?_⟩
        · simp [py_min_fold, hlt, hfold]
        · simp [hys]
        · intro o ho
          rcases List.mem_cons.mp ho with h | h
          · subst h
            exact le_of_lt hbbest
          · rcases List.mem_cons.mp h with h2 | h2
            · subst h2
              exact le_of_lt (lt_of_lt_of_le hbbest hle)
            · exact hmin o (List.mem_cons_of_mem _ (hys ▸ h2))
        · intro o ho
          rcases List.mem_cons.mp ho with h | h
          · subst h
            exact hbbest
          · rcases List.mem_cons.mp h with h2 | h2
            · subst h2
              exact lt_of_lt_of_le hbbest hle
            · exact hpre o (List.mem_cons_of_mem _ h2)

/-- The four concrete offers of the specification's tie-breaking example,
with prices 30, 10, 10 and 20 and distinct result ids. -/
def tie_example_offers : List VehicleOffer :=
  [ { result_id := "offer0", total_price := { total_price := { value := 30 } } },
    { result_id := "offer1", total_price := { total_price := { value := 10 } } },
    { result_id := "offer2", total_price := { total_price := { value := 10 } } },
    { result_id := "offer3", total_price := { total_price := { value := 20 } } } ]

/-- Claim C4: on every nonempty offer list, `cheapest_vehicle` selects an
offer of minimal numeric total price, and among ties the
first-encountered one: the selected offer splits the list into a prefix
whose prices are all strictly larger, itself, and a remainder; in
particular on prices 30, 10, 10, 20 it selects the offer at index 1
("offer1"), not the equal-priced one at index 2. -/
theorem cheapest_vehicle_stable_min :
    (∀ (x : VehicleOffer) (xs : List VehicleOffer),
      ∃ pre best post,
        cheapest_vehicle (x :: xs) = some best ∧
        x :: xs = pre ++ best :: post ∧
        (∀ o ∈ x :: xs, offer_price best ≤ offer_price o) ∧
        (∀ o ∈ pre, offer_price best < offer_price o))
    ∧ cheapest_vehicle tie_example_offers =
        some { result_id := "offer1", total_price := { total_price := { value := 10 } } } := by
  constructor
  · intro x xs
    obtain ⟨pre, b, post, hfold, hdec, hmin, hpre⟩ := py_min_fold_first_min offer_price xs x
    exact ⟨pre, b, post, by simp [cheapest_vehicle, py_min, hfold], hdec, hmin, hpre⟩
  · decide

end Mozio

namespace Mozio

/-- A reservation stream that completes at once with a record whose `id`
is the empty string. -/
def empty_id_polls : Nat → PollReservationResponse := fun _ =>
  { status := some "completed",
    reservations := [{ confirmation_number := "CONF", id := "" }] }

/-- Counterexample to claim C6 as stated: at this concrete run
`book_and_get_status` returns `Some` (the reservation id is present, the
empty string), yet the driver's `if not reservation_id` guard treats the
empty string as falsy and the cancel endpoint is called zero times, not
once. -/
theorem cancel_iff_some_counterexample :
    book_and_get_status sample_book_body empty_id_polls =
        BookStatusResult.returned (some "") (some "CONF") 1
      ∧ workflow_cancel_calls
          (BookStatusResult.returned (some "") (some "CONF") 1) = 0 := by
  decide

/-- Claim C6 amended: the driver calls the cancel endpoint exactly once
iff `book_and_get_status` returned `Some` of a nonempty reservation id
(the guard is Python truthiness of the id string), and zero times in
every other case, including `Some ""`; the call count is never more
than one. -/
theorem cancel_iff_truthy_id (outcome : BookStatusResult) :
    (workflow_cancel_calls outcome = 1 ↔
      ∃ s confirmation attempts,
        outcome = BookStatusResult.returned (some s) confirmation attempts ∧ s ≠ "")
    ∧ (workflow_cancel_calls outcome = 0 ∨ workflow_cancel_calls outcome = 1) := by
  constructor
  · constructor
    · intro h1
      match outcome with
      | BookStatusResult.returned reservation_id confirmation attempts =>
        match reservation_id with
        | none => simp [workflow_cancel_calls, cancel_call_count, pyTruthyStr] at h1
        | some s =>
          refine ⟨s, confirmation, attempts, rfl, ?_⟩
          intro hs
          subst hs
          simp [workflow_cancel_calls, cancel_call_count, pyTruthyStr,
            String.isEmpty_iff] at h1
      | BookStatusResult.index_error attempts =>
        simp [workflow_cancel_calls] at h1
      | BookStatusResult.budget_exceeded attempts =>
        simp [workflow_cancel_calls] at h1
    · rintro ⟨s, confirmation, attempts, rfl, hs⟩
      have hne : s.isEmpty = false := by
        cases he : s.isEmpty
        · rfl
        · exact absurd ((String.isEmpty_iff s).mp he) hs
      have htruthy : pyTruthyStr (some s) = true := by
        simp [pyTruthyStr, hne]
      simp [workflow_cancel_calls, cancel_call_count, htruthy]
  · match outcome with
    | BookStatusResult.returned reservation_id confirmation attempts =>
      simp only [workflow_cancel_calls, cancel_call_count]
      by_cases h : pyTruthyStr reservation_id = true
      · right; simp [h]
      · left; simp [h]
    | BookStatusResult.index_error attempts => left; rfl
    | BookStatusResult.budget_exceeded attempts => left; rfl

/-- Claim C7: when the base-url or api-key configuration value is missing
(unset or the empty string, both falsy in Python), constructing the
client raises `EnvironmentVariableNotSet`, and the constructor body makes
zero HTTP calls. -/
theorem client_construct_config_error (BASE_URL API_KEY : Option String)
    (h : pyTruthyStr BASE_URL = false ∨ pyTruthyStr API_KEY = false) :
    (∃ e, (client_construct BASE_URL API_KEY).result = Except.error e)
      ∧ (client_construct BASE_URL API_KEY).http_calls = 0 := by
  constructor
  · rcases h with h | h
    · exact ⟨EnvironmentVariableNotSet.baseUrlNotSet, by simp [client_construct, h]⟩
    · by_cases hb : pyTruthyStr BASE_URL = true
      · exact ⟨EnvironmentVariableNotSet.apiKeyNotSet, by simp [client_construct, hb, h]⟩
      · have hb2 : pyTruthyStr BASE_URL = false := by
          cases hbase : pyTruthyStr BASE_URL
          · rfl
          · exact absurd hbase hb
        exact ⟨EnvironmentVariableNotSet.baseUrlNotSet, by simp [client_construct, hb2]⟩
  · match hb : pyTruthyStr BASE_URL with
    | false => simp [client_construct, hb]
    | true =>
      match hk : pyTruthyStr API_KEY with
      | false => simp [client_construct, hb, hk]
      | true => simp [client_construct, hb, hk]

/-- Witness for claim C7 with the base url unset and an api key present:
construction fails and zero HTTP calls are made. -/
theorem client_construct_config_error_witness :
    (∃ e, (client_construct none (some "key")).result = Except.error e)
      ∧ (client_construct none (some "key")).http_calls = 0 :=
  client_construct_config_error none (some "key") (Or.inl rfl)

/-- Claim C8: the book call's 2xx response body is discarded at
src/main.py line 159, so two runs of `book_and_get_status` that differ
only in that body and see the same reservation-poll responses return the
same result: the outcome depends only on polling. -/
theorem book_response_noninterference (body1 body2 : BookResponseBody)
    (polls : Nat → PollReservationResponse) :
    book_and_get_status body1 polls = book_and_get_status body2 polls := rfl

/-- Claim C9: whenever `cancel` returns (the response is 2xx, no
exception), the returned boolean is `True`; consequently the driver's
cancellation-"Failed" report, taken when `cancel` returns a falsy value,
is unreachable. -/
theorem cancel_never_false (response : HttpResponse) :
    (∀ b, cancel response = Except.ok b → b = true)
      ∧ cancellation_report (cancel response) ≠ some "Failed" := by
  cases hok : response.ok with
  | false =>
    constructor
    · intro b hb
      simp [cancel, hok] at hb
    · simp [cancel, cancellation_report, hok]
  | true =>
    constructor
    · intro b hb
      simp [cancel, hok] at hb
      exact hb
    · simp [cancel, cancellation_report, hok]

end Mozio
